import Mathlib

set_option autoImplicit false

/-!
Shallow embedding of the mcgo package (account.go and its sibling revision):
the Minecraft account authentication flow and the timed name-change ("claim")
transmission engine.  Network and clock effects are made explicit: every
function that performs I/O takes an environment recording what the provider
and the clock answer at each call site, and functions that touch the wire
additionally produce a trace of the events they issue (sleeps, dial, writes,
read, close), in order.
-/

namespace Mcgo

/-- Go `type AccType string`; its zero value is the empty string. -/
abbrev AccType := String

def Ms : AccType := "ms"

def Mj : AccType := "mj"

def MsPr : AccType := "mspr"

/-- Inner `answer` struct of `SqAnswer` (only the id). -/
structure SqAnswerAnswer where
  ID : Int := 0
deriving Repr, DecidableEq

/-- Inner `question` struct of `SqAnswer`. -/
structure SqAnswerQuestion where
  ID : Int := 0
  Question : String := ""
deriving Repr, DecidableEq

/-- One security question / answer-id pair as returned by the provider. -/
structure SqAnswer where
  Answer : SqAnswerAnswer := {}
  Question : SqAnswerQuestion := {}
deriving Repr, DecidableEq

/-- The `MCaccount` struct.  Go zero values are the field defaults, so
`({} : MCaccount)` is the zero-valued `MCaccount{}`. -/
structure MCaccount where
  Email : String := ""
  Password : String := ""
  SecurityQuestions : List SqAnswer := []
  SecurityAnswers : List String := []
  Bearer : String := ""
  UUID : String := ""
  Username : String := ""
  «Type» : AccType := ""
  Authenticated : Bool := false
deriving Repr, DecidableEq

/-- The `NameChangeReturn` struct of the claim engine.  `time.Time` values are
modelled as integer nanoseconds; the zero `time.Time{}` is `0`. -/
structure NameChangeReturn where
  Account : MCaccount := {}
  Username : String := ""
  ChangedName : Bool := false
  StatusCode : Int := 0
  SendTime : Int := 0
  ReceiveTime : Int := 0
deriving Repr, DecidableEq

/-- `time.Second` in nanoseconds. -/
def second : Int := 1000000000

/-- Wire-level events issued by `ChangeName`, in program order. -/
inductive Ev where
  | sleep (d : Int)
  | dial
  | write (bytes : List Char)
  | read
  | close
deriving Repr, DecidableEq

/-- Go `time.Sleep(d)`: a non-positive duration returns immediately without
suspending, so only a positive duration produces a suspension event. -/
def goSleep (d : Int) : List Ev :=
  if 0 < d then [Ev.sleep d] else []

/-- Decimal digit test on a byte, as `strconv` does it. -/
def isGoDigit (c : Char) : Bool :=
  decide (48 ≤ c.toNat) && decide (c.toNat ≤ 57)

/-- Accumulate decimal digits; `none` as soon as a non-digit byte appears. -/
def digitsToNat : List Char → Nat → Option Nat
  | [], acc => some acc
  | c :: cs, acc =>
    if isGoDigit c then digitsToNat cs (acc * 10 + (c.toNat - 48)) else none

/-- Go `strconv.Atoi` on a short byte string: an optional sign followed by at
least one digit; anything else is a syntax error. -/
def goAtoi (s : List Char) : Except String Int :=
  let signed : Bool × List Char :=
    match s with
    | c :: rest =>
      if c = '-' then (true, rest)
      else if c = '+' then (false, rest)
      else (false, s)
    | [] => (false, [])
  match signed.2 with
  | [] => Except.error "strconv.Atoi: parsing: invalid syntax"
  | _ =>
    match digitsToNat signed.2 0 with
    | none => Except.error "strconv.Atoi: parsing: invalid syntax"
    | some n => Except.ok (if signed.1 then -(n : Int) else (n : Int))

/-- JSON body `fmt.Sprintf` built for the create-profile request shape. -/
def createProfileData (username : String) : List Char :=
  ("\x7b\"profileName\": \"").toList ++ username.toList ++ ("\"\x7d").toList

/-- Prebuilt raw request for `createProfile = true` (POST /minecraft/profile
with a JSON body); the payload ends with the body, not with the blank line. -/
def createProfilePayload (bearer username : String) : List Char :=
  ("POST /minecraft/profile HTTP/1.1\r\nHost: api.minecraftservices.com\r\nAuthorization: Bearer ").toList
    ++ bearer.toList
    ++ ("\r\nContent-Type: application/json\r\nContent-Length: ").toList
    ++ (toString (createProfileData username).length).toList
    ++ ("\r\n\r\n").toList
    ++ createProfileData username

/-- Prebuilt raw request for `createProfile = false` (PUT
/minecraft/profile/name/<username>); the payload ends with the blank line. -/
def renamePayload (bearer username : String) : List Char :=
  ("PUT /minecraft/profile/name/").toList
    ++ username.toList
    ++ (" HTTP/1.1\r\nHost: api.minecraftservices.com\r\nAuthorization: Bearer ").toList
    ++ bearer.toList
    ++ ("\r\n\r\n").toList

/-- The payload `ChangeName` prebuilds, selected by the `createProfile`
flag; it reads only the account's bearer token. -/
def claimPayload (account : MCaccount) (username : String) (createProfile : Bool) : List Char :=
  if createProfile then createProfilePayload account.Bearer username
  else renamePayload account.Bearer username

/-- Environment for one `ChangeName` run: the wall clock observed at the two
`time.Until` call sites and the two `time.Now` call sites, whether `tls.Dial`
succeeds, and the response bytes the server puts in the 4096-byte buffer. -/
structure NetEnv where
  now1 : Int := 0
  now2 : Int := 0
  sendNow : Int := 0
  recvNow : Int := 0
  dialOk : Bool := true
  recvBytes : List Char := []
deriving Repr, DecidableEq

/-- Byte `i` of the `recvd` buffer: `make([]byte, 4096)` zero-fills, so bytes
the read did not cover are NUL. -/
def recvdAt (env : NetEnv) (i : Nat) : Char :=
  env.recvBytes.getD i (Char.ofNat 0)

/-- Result of one `ChangeName` run.  `outcome = none` models the runtime
panic of `conn.Write` dereferencing the nil connection when `tls.Dial` failed
(the write precedes the error check in the source); otherwise the Go pair
`(NameChangeReturn, error)` is returned.  `finalAccount` is the state of the
receiver after the call: the source never assigns to any `account` field. -/
structure Run where
  finalAccount : MCaccount
  outcome : Option (NameChangeReturn × Option String)
  trace : List Ev
deriving Repr, DecidableEq

/-- The timed claim engine `ChangeName` (the two-sleep revision): build the
payload, sleep until 20 s before `changeTime`, dial, write all but the last
two bytes, sleep until `changeTime`, write the last two bytes, read a bounded
prefix, close, and parse bytes 9..11 of the response as the status code. -/
def ChangeName (account : MCaccount) (username : String) (changeTime : Int)
    (createProfile : Bool) (env : NetEnv) : Run :=
  let payload : List Char := claimPayload account username createProfile
  let sleep1 := goSleep (changeTime - env.now1 - 20 * second)
  if env.dialOk then
    let part1 := payload.take (payload.length - 2)
    let sleep2 := goSleep (changeTime - env.now2)
    let part2 := payload.drop (payload.length - 2)
    let tr := sleep1 ++ [Ev.dial, Ev.write part1] ++ sleep2
      ++ [Ev.write part2, Ev.read, Ev.close]
    match goAtoi [recvdAt env 9, recvdAt env 10, recvdAt env 11] with
    | Except.error e =>
      { finalAccount := account
        outcome := some ({ Account := {}, Username := username, ChangedName := false,
                           StatusCode := 0, SendTime := env.sendNow, ReceiveTime := 0 }, some e)
        trace := tr }
    | Except.ok status =>
      { finalAccount := account
        outcome := some ({ Account := account, Username := username,
                           ChangedName := decide (status < 300), StatusCode := status,
                           SendTime := env.sendNow, ReceiveTime := env.recvNow }, none)
        trace := tr }
  else
    -- tls.Dial returned (nil, err); the immediate conn.Write(payload[:len-2])
    -- dereferences the nil *tls.Conn and panics before the err check runs.
    { finalAccount := account, outcome := none, trace := sleep1 ++ [Ev.dial] }

/-- Number of write events in a trace. -/
def countWrites : List Ev → Nat
  | [] => 0
  | Ev.write _ :: rest => countWrites rest + 1
  | _ :: rest => countWrites rest

/-- Some write event is immediately followed by another write event. -/
def adjacentWrites : List Ev → Bool
  | Ev.write _ :: Ev.write _ :: _ => true
  | _ :: rest => adjacentWrites rest
  | [] => false

/-- The byte strings of the write events of a trace, in order. -/
def writeEvents (tr : List Ev) : List (List Char) :=
  tr.filterMap fun e =>
    match e with
    | Ev.write bytes => some bytes
    | _ => none

/-! Authentication flow.  Each provider interaction is parameterized by an
environment giving the transport outcome, the HTTP status and the result of
reading/unmarshalling the body at that call site.  `http.NewRequest` on the
constant well-formed method/URL pairs used here cannot fail, so it is not a
branch point; `json.Marshal` of a slice of plain structs cannot fail either. -/

/-- Fields of the authenticate response body that the code reads
(`accessToken`, `user.username`, `user.id`). -/
structure AuthInfo where
  Accesstoken : String := ""
  UserUsername : String := ""
  UserID : String := ""
deriving Repr, DecidableEq

/-- Environment of one `authenticate` call: `none` for a transport error from
`http.DefaultClient.Do`, otherwise the status code; then the outcome of
`ioutil.ReadAll` and of `json.Unmarshal` on the body. -/
structure AuthenticateEnv where
  resp : Option Nat := none
  transportMsg : String := "transport error"
  readBody : Except String Unit := Except.ok ()
  parsed : Except String AuthInfo := Except.ok {}
deriving Repr

/-- Fixed fall-through error of `authenticate` for a non-success, non-403
status; it mentions no status code. -/
def unexpectedAuthMsg : String :=
  "reached end of authenticate function! Shouldn't be possible. most likely 'failed to auth' status code changed"

/-- The credential exchange `authenticate`: status < 300 parses the body and
stores bearer/username/uuid on the account; status 403 is invalid
credentials; any other status returns the fixed fall-through error. -/
def authenticate (account : MCaccount) (env : AuthenticateEnv) :
    MCaccount × Except String Unit :=
  match env.resp with
  | none => (account, Except.error env.transportMsg)
  | some status =>
    if status < 300 then
      match env.readBody with
      | Except.error e => (account, Except.error e)
      | Except.ok _ =>
        match env.parsed with
        | Except.error e => (account, Except.error e)
        | Except.ok info =>
          ({ account with Bearer := info.Accesstoken, Username := info.UserUsername,
                          UUID := info.UserID }, Except.ok ())
    else if status = 403 then (account, Except.error "invalid email or password")
    else (account, Except.error unexpectedAuthMsg)

/-- Environment of one `loadSecurityQuestions` call. -/
structure LoadEnv where
  resp : Option Nat := none
  transportMsg : String := "transport error"
  readBody : Except String Unit := Except.ok ()
  parsed : Except String (List SqAnswer) := Except.ok []
deriving Repr

/-- `loadSecurityQuestions`: an authenticated GET of the challenge list;
status ≥ 400 fails, otherwise the unmarshalled list is stored on the
account.  `AuthenticatedReq` fails first when no bearer is set. -/
def loadSecurityQuestions (account : MCaccount) (env : LoadEnv) :
    MCaccount × Except String Unit :=
  if account.Bearer = "" then (account, Except.error "account is not authenticated")
  else
    match env.resp with
    | none => (account, Except.error env.transportMsg)
    | some status =>
      if 400 ≤ status then
        (account, Except.error ("got status " ++ toString status
          ++ " when requesting security questions"))
      else
        match env.readBody with
        | Except.error e => (account, Except.error e)
        | Except.ok _ =>
          match env.parsed with
          | Except.error e => (account, Except.error e)
          | Except.ok sqs => ({ account with SecurityQuestions := sqs }, Except.ok ())

/-- Environment of one `needToAnswer` call. -/
structure NeedEnv where
  resp : Option Nat := none
  transportMsg : String := "transport error"
deriving Repr

/-- `needToAnswer`: 204 means no answer needed, 403 means an answer is
required, anything else is an unexpected provider state. -/
def needToAnswer (account : MCaccount) (env : NeedEnv) : Bool × Except String Unit :=
  if account.Bearer = "" then (false, Except.error "account is not authenticated")
  else
    match env.resp with
    | none => (true, Except.error env.transportMsg)
    | some status =>
      if status = 204 then (false, Except.ok ())
      else if status = 403 then (true, Except.ok ())
      else (true, Except.error ("status of " ++ toString status
        ++ " in needToAnswer not expected"))

/-- One element of the JSON array POSTed by `submitAnswers`. -/
structure SubmitPostJson where
  ID : Int := 0
  Answer : String := ""
deriving Repr, DecidableEq

/-- A network request issued to the provider (recorded when
`http.DefaultClient.Do` runs). -/
inductive NetCall where
  | http (method : String) (url : String)
deriving Repr, DecidableEq

/-- Environment of one `submitAnswers` call. -/
structure SubmitEnv where
  resp : Option Nat := none
  transportMsg : String := "transport error"
deriving Repr

/-- `submitAnswers`: arity-validate the three answers and three questions,
pair them positionally, then POST them; 204 succeeds, 403 is a wrong answer.
The second component records every network request actually issued. -/
def submitAnswers (account : MCaccount) (env : SubmitEnv) :
    Except String Unit × List NetCall :=
  if account.SecurityAnswers.length ≠ 3 then
    (Except.error "not enough security question answers provided", [])
  else if account.SecurityQuestions.length ≠ 3 then
    (Except.error "security questions not properly loaded", [])
  else
    let _jsonContent : List SubmitPostJson :=
      List.zipWith (fun (sq : SqAnswer) (a : String) => { ID := sq.Answer.ID, Answer := a })
        account.SecurityQuestions account.SecurityAnswers
    if account.Bearer = "" then (Except.error "account is not authenticated", [])
    else
      let call := NetCall.http "POST" "https://api.mojang.com/user/security/location"
      match env.resp with
      | none => (Except.error env.transportMsg, [call])
      | some status =>
        if status = 204 then (Except.ok (), [call])
        else if status = 403 then
          (Except.error "at least one security question answer was incorrect", [call])
        else (Except.error ("got status " ++ toString status
          ++ " on post request for sqs"), [call])

/-- The steps of `MojangAuthenticate` that were invoked, in order. -/
inductive AuthStep where
  | stepAuthenticate
  | stepLoadQuestions
  | stepNeedToAnswer
  | stepSubmitAnswers
deriving Repr, DecidableEq

/-- Environments of the four potential provider interactions of one
`MojangAuthenticate` run. -/
structure MojangEnv where
  auth : AuthenticateEnv := {}
  load : LoadEnv := {}
  need : NeedEnv := {}
  submit : SubmitEnv := {}
deriving Repr

/-- The linear authentication state machine `MojangAuthenticate`: credential
exchange, question loading, then (for a non-empty question list) the
requirement probe and, when required, answer submission.  Any error aborts at
once; `Authenticated` is assigned only on the three success exits. -/
def MojangAuthenticate (account : MCaccount) (env : MojangEnv) :
    MCaccount × Except String Unit × List AuthStep :=
  match authenticate account env.auth with
  | (acc1, Except.error e) => (acc1, Except.error e, [AuthStep.stepAuthenticate])
  | (acc1, Except.ok _) =>
    match loadSecurityQuestions acc1 env.load with
    | (acc2, Except.error e) =>
      (acc2, Except.error e, [AuthStep.stepAuthenticate, AuthStep.stepLoadQuestions])
    | (acc2, Except.ok _) =>
      if acc2.SecurityQuestions.length = 0 then
        ({ acc2 with Authenticated := true }, Except.ok (),
          [AuthStep.stepAuthenticate, AuthStep.stepLoadQuestions])
      else
        match needToAnswer acc2 env.need with
        | (_, Except.error e) =>
          (acc2, Except.error e,
            [AuthStep.stepAuthenticate, AuthStep.stepLoadQuestions, AuthStep.stepNeedToAnswer])
        | (needed, Except.ok _) =>
          if !needed then
            ({ acc2 with Authenticated := true }, Except.ok (),
              [AuthStep.stepAuthenticate, AuthStep.stepLoadQuestions, AuthStep.stepNeedToAnswer])
          else
            match (submitAnswers acc2 env.submit).1 with
            | Except.error e =>
              (acc2, Except.error e,
                [AuthStep.stepAuthenticate, AuthStep.stepLoadQuestions,
                 AuthStep.stepNeedToAnswer, AuthStep.stepSubmitAnswers])
            | Except.ok _ =>
              ({ acc2 with Authenticated := true }, Except.ok (),
                [AuthStep.stepAuthenticate, AuthStep.stepLoadQuestions,
                 AuthStep.stepNeedToAnswer, AuthStep.stepSubmitAnswers])

/-- Concrete account used to instantiate the claim theorems. -/
def accW : MCaccount := { Bearer := "token" }

/-- Environment of a successful 200-status claim run. -/
def envW : NetEnv :=
  { sendNow := 5, recvNow := 6, recvBytes := ("HTTP/1.1 200 OK").toList }

/-- Environment of a run whose clock readings put the scheduled instant 30 s
ahead at the first reading and 20 s ahead at the second. -/
def envW2 : NetEnv :=
  { now1 := 0, now2 := 10 * second, sendNow := 30 * second, recvNow := 31 * second,
    recvBytes := ("HTTP/1.1 200 OK").toList }

/-- Environment in which `tls.Dial` fails. -/
def envDialFail : NetEnv := { dialOk := false }

/-- Environment whose response bytes carry no digits at offsets 9..11. -/
def envGarbage : NetEnv :=
  { sendNow := 5, recvNow := 6, recvBytes := ("garbage response").toList }

/-- Environments of a successful zero-question authentication run. -/
def envAuthOkW : MojangEnv :=
  { auth := { resp := some 200, parsed := Except.ok { Accesstoken := "token" } },
    load := { resp := some 200, parsed := Except.ok [] } }

/-- Concrete `authenticate` environment at a given status code. -/
def authEnvAt (status : Nat) : AuthenticateEnv :=
  { resp := some status, parsed := Except.ok { Accesstoken := "token" } }

/-- Outcome with the echoed `Account` field blanked, for comparing runs of
`ChangeName` on different receivers. -/
def stripAcc (p : NameChangeReturn × Option String) : NameChangeReturn × Option String :=
  ({ p.1 with Account := {} }, p.2)

/-- Claim C1: whenever `ChangeName` returns without error, the outcome's
`ChangedName` equals the comparison `StatusCode < 300`; this covers every
extractable status code, in particular all of 0..999. -/
theorem changeName_success_iff_status_lt_300 (account : MCaccount) (username : String)
    (changeTime : Int) (createProfile : Bool) (env : NetEnv) (ret : NameChangeReturn)
    (h : (ChangeName account username changeTime createProfile env).outcome = some (ret, none)) :
    ret.ChangedName = decide (ret.StatusCode < 300) := by
  unfold ChangeName at h
  cases hd : env.dialOk with
  | false => simp [hd] at h
  | true =>
    rcases hAtoi : goAtoi [recvdAt env 9, recvdAt env 10, recvdAt env 11] with e | status
    · simp [hd, hAtoi] at h
    · simp [hd, hAtoi] at h
      rw [← h]

/-- Claim C1 witness: a concrete 200-status run. -/
theorem changeName_success_iff_status_lt_300_witness :
    (ChangeName accW "abc" 0 false envW).outcome
      = some ({ Account := accW, Username := "abc", ChangedName := true,
                StatusCode := 200, SendTime := 5, ReceiveTime := 6 }, none)
    ∧ ({ Account := accW, Username := "abc", ChangedName := true, StatusCode := 200,
         SendTime := 5, ReceiveTime := 6 } : NameChangeReturn).ChangedName
      = decide (({ Account := accW, Username := "abc", ChangedName := true, StatusCode := 200,
                   SendTime := 5, ReceiveTime := 6 } : NameChangeReturn).StatusCode < 300) := by
  have h : (ChangeName accW "abc" 0 false envW).outcome
      = some ({ Account := accW, Username := "abc", ChangedName := true,
                StatusCode := 200, SendTime := 5, ReceiveTime := 6 }, none) := by decide
  exact ⟨h, changeName_success_iff_status_lt_300 accW "abc" 0 false envW _ h⟩

/-- Claim C7 (code bug evidence): when `tls.Dial` fails the function panics
(modelled as `outcome = none`) instead of aborting with zero timestamps,
because the first write dereferences the nil connection before the error
check; on a malformed status line it does abort with the captured send
timestamp and a zero receive timestamp. -/
theorem changeName_dial_failure_panics :
    (ChangeName accW "abc" 0 false envDialFail).outcome = none
    ∧ (ChangeName accW "abc" 0 false envGarbage).outcome
      = some ({ Account := {}, Username := "abc", ChangedName := false, StatusCode := 0,
                SendTime := 5, ReceiveTime := 0 },
              some "strconv.Atoi: parsing: invalid syntax") := by
  constructor <;> decide

/-- Claim C8: with the scheduled instant at or before every clock reading,
`ChangeName` performs no sleep at all: both `time.Sleep` calls receive a
non-positive duration and return immediately. -/
theorem changeName_no_sleep_when_past (account : MCaccount) (username : String)
    (changeTime : Int) (createProfile : Bool) (env : NetEnv)
    (h1 : changeTime ≤ env.now1) (h2 : env.now1 ≤ env.now2) :
    ∀ d : Int, Ev.sleep d ∉ (ChangeName account username changeTime createProfile env).trace := by
  intro d
  have hsec : second = 1000000000 := rfl
  have hn1 : ¬ (0 < changeTime - env.now1 - 20 * second) := by rw [hsec]; omega
  have hn2 : ¬ (0 < changeTime - env.now2) := by omega
  have hs1 : goSleep (changeTime - env.now1 - 20 * second) = [] := by
    unfold goSleep
    exact if_neg hn1
  have hs2 : goSleep (changeTime - env.now2) = [] := by
    unfold goSleep
    exact if_neg hn2
  unfold ChangeName
  cases hd : env.dialOk with
  | false => simp [hd, hs1]
  | true =>
    rcases hAtoi : goAtoi [recvdAt env 9, recvdAt env 10, recvdAt env 11] with e | status <;>
      simp [hd, hAtoi, hs1, hs2]

/-- Claim C8 witness: a past instant with monotone clock readings. -/
theorem changeName_no_sleep_when_past_witness :
    (0 : Int) ≤ envW.now1 ∧ envW.now1 ≤ envW.now2
    ∧ ∀ d : Int, Ev.sleep d ∉ (ChangeName accW "abc" 0 false envW).trace := by
  have h1 : (0 : Int) ≤ envW.now1 := by decide
  have h2 : envW.now1 ≤ envW.now2 := by decide
  exact ⟨h1, h2, changeName_no_sleep_when_past accW "abc" 0 false envW h1 h2⟩

/-- Claim C2 counterexample: a future-instant run has exactly two writes and
they are not adjacent — the sleep until the scheduled instant sits between
the head write and the terminator write. -/
theorem changeName_writes_not_back_to_back :
    countWrites (ChangeName accW "abc" (30 * second) false envW2).trace = 2
    ∧ adjacentWrites (ChangeName accW "abc" (30 * second) false envW2).trace = false
    ∧ (ChangeName accW "abc" (30 * second) false envW2).trace =
        [Ev.sleep (10 * second), Ev.dial,
         Ev.write ((renamePayload "token" "abc").take ((renamePayload "token" "abc").length - 2)),
         Ev.sleep (20 * second),
         Ev.write ((renamePayload "token" "abc").drop ((renamePayload "token" "abc").length - 2)),
         Ev.read, Ev.close] := by
  refine ⟨by decide, by decide, by decide⟩

/-- Claim C2 amended: in every run that reaches the writes, the only event
between the two writes is the sleep until the scheduled instant (absent when
that instant has passed); the terminator write immediately follows it. -/
theorem changeName_write_split_shape (account : MCaccount) (username : String)
    (changeTime : Int) (createProfile : Bool) (env : NetEnv) (h : env.dialOk = true) :
    ∃ p1 p2 : List Char,
      (ChangeName account username changeTime createProfile env).trace =
        goSleep (changeTime - env.now1 - 20 * second) ++ [Ev.dial, Ev.write p1]
          ++ goSleep (changeTime - env.now2) ++ [Ev.write p2, Ev.read, Ev.close] := by
  unfold ChangeName
  rcases hAtoi : goAtoi [recvdAt env 9, recvdAt env 10, recvdAt env 11] with e | status <;>
    simp [h, hAtoi]

/-- Claim C2 amended witness: the shape at the concrete future-instant run. -/
theorem changeName_write_split_shape_witness :
    envW2.dialOk = true
    ∧ ∃ p1 p2 : List Char,
        (ChangeName accW "abc" (30 * second) false envW2).trace =
          goSleep (30 * second - envW2.now1 - 20 * second) ++ [Ev.dial, Ev.write p1]
            ++ goSleep (30 * second - envW2.now2) ++ [Ev.write p2, Ev.read, Ev.close] := by
  have h : envW2.dialOk = true := rfl
  exact ⟨h, changeName_write_split_shape accW "abc" (30 * second) false envW2 h⟩

/-- Dropping all but the last two elements of a list that ends in a fixed
two-element tail yields that tail. -/
theorem drop_sub_two_of_append_pair {α : Type} (xs tail : List α) (h : tail.length = 2) :
    (xs ++ tail).drop ((xs ++ tail).length - 2) = tail := by
  have hlen : (xs ++ tail).length - 2 = xs.length := by
    simp [List.length_append, h]
  rw [hlen, List.drop_left]

/-- The rename-shape payload ends in the CRLF blank line. -/
theorem renamePayload_tail (bearer username : String) :
    (renamePayload bearer username).drop ((renamePayload bearer username).length - 2)
      = ("\r\n").toList := by
  have hsplit : renamePayload bearer username =
      (("PUT /minecraft/profile/name/").toList ++ username.toList
        ++ (" HTTP/1.1\r\nHost: api.minecraftservices.com\r\nAuthorization: Bearer ").toList
        ++ bearer.toList ++ ("\r\n").toList) ++ ("\r\n").toList := by
    have h4 : ("\r\n\r\n").toList = ("\r\n").toList ++ ("\r\n").toList := rfl
    simp [renamePayload, h4]
  rw [hsplit]
  exact drop_sub_two_of_append_pair _ (("\r\n").toList) (by rfl)

/-- The create-profile-shape payload ends in the last two bytes of its JSON
body, not in the blank line. -/
theorem createProfilePayload_tail (bearer username : String) :
    (createProfilePayload bearer username).drop
        ((createProfilePayload bearer username).length - 2)
      = ("\"\x7d").toList := by
  have hsplit : createProfilePayload bearer username =
      (("POST /minecraft/profile HTTP/1.1\r\nHost: api.minecraftservices.com\r\nAuthorization: Bearer ").toList
        ++ bearer.toList
        ++ ("\r\nContent-Type: application/json\r\nContent-Length: ").toList
        ++ (toString (createProfileData username).length).toList
        ++ ("\r\n\r\n").toList
        ++ ("\x7b\"profileName\": \"").toList ++ username.toList) ++ ("\"\x7d").toList := by
    simp [createProfilePayload, createProfileData]
  rw [hsplit]
  exact drop_sub_two_of_append_pair _ (("\"\x7d").toList) (by rfl)

/-- The write events of a sleep block are empty. -/
theorem writeEvents_goSleep (d : Int) : writeEvents (goSleep d) = [] := by
  unfold goSleep
  split <;> rfl

set_option maxRecDepth 4000 in
/-- Claim C3 counterexample: in a create-profile run, the trace contains a
write of the two bytes closing the JSON body and no write of the CRLF
blank-line terminator. -/
theorem changeName_create_second_write_not_crlf :
    Ev.write (("\"\x7d").toList) ∈ (ChangeName accW "abc" 0 true envW).trace
    ∧ Ev.write (("\r\n").toList) ∉ (ChangeName accW "abc" 0 true envW).trace := by
  constructor <;> decide

/-- Claim C3 amended: the split point is always exactly two bytes before the
payload's end; the writes transmit the whole payload, the second write being
the final CRLF for the rename shape but the last two body bytes for the
create-profile shape. -/
theorem changeName_write_contents (account : MCaccount) (username : String)
    (changeTime : Int) (createProfile : Bool) (env : NetEnv) (h : env.dialOk = true) :
    writeEvents (ChangeName account username changeTime createProfile env).trace
      = [(claimPayload account username createProfile).take
           ((claimPayload account username createProfile).length - 2),
         (claimPayload account username createProfile).drop
           ((claimPayload account username createProfile).length - 2)]
    ∧ (claimPayload account username createProfile).take
          ((claimPayload account username createProfile).length - 2)
        ++ (claimPayload account username createProfile).drop
            ((claimPayload account username createProfile).length - 2)
      = claimPayload account username createProfile
    ∧ (claimPayload account username createProfile).drop
          ((claimPayload account username createProfile).length - 2)
      = (if createProfile then ("\"\x7d").toList else ("\r\n").toList) := by
  refine ⟨?_, List.take_append_drop _ _, ?_⟩
  · unfold ChangeName
    rcases hAtoi : goAtoi [recvdAt env 9, recvdAt env 10, recvdAt env 11] with e | status <;>
      by_cases hs1 : 0 < changeTime - env.now1 - 20 * second <;>
      by_cases hs2 : 0 < changeTime - env.now2 <;>
      simp [h, hAtoi, goSleep, hs1, hs2, writeEvents]
  · cases createProfile with
    | false => simpa [claimPayload] using renamePayload_tail account.Bearer username
    | true => simpa [claimPayload] using createProfilePayload_tail account.Bearer username

/-- Claim C3 amended witness: the write contents at a concrete rename run. -/
theorem changeName_write_contents_witness :
    envW.dialOk = true
    ∧ writeEvents (ChangeName accW "abc" 0 false envW).trace
        = [(claimPayload accW "abc" false).take ((claimPayload accW "abc" false).length - 2),
           (claimPayload accW "abc" false).drop ((claimPayload accW "abc" false).length - 2)]
    ∧ (claimPayload accW "abc" false).drop ((claimPayload accW "abc" false).length - 2)
        = ("\r\n").toList := by
  have h : envW.dialOk = true := rfl
  have hc := changeName_write_contents accW "abc" 0 false envW h
  exact ⟨h, hc.1, hc.2.2⟩

/-- Claim C4: whenever the answer count or the question count differs from 3,
`submitAnswers` fails with one of the two arity-validation errors and issues
no network request. -/
theorem submitAnswers_arity_validation (account : MCaccount) (env : SubmitEnv)
    (h : account.SecurityAnswers.length ≠ 3 ∨ account.SecurityQuestions.length ≠ 3) :
    ((submitAnswers account env).1 = Except.error "not enough security question answers provided"
      ∨ (submitAnswers account env).1 = Except.error "security questions not properly loaded")
    ∧ (submitAnswers account env).2 = [] := by
  unfold submitAnswers
  by_cases ha : account.SecurityAnswers.length = 3
  · rcases h with h | h
    · exact absurd ha h
    · simp [ha, h]
  · simp [ha]

/-- Claim C4 witness: an account with two answers and three questions. -/
theorem submitAnswers_arity_validation_witness :
    (({ SecurityAnswers := ["a", "b"], SecurityQuestions := [{}, {}, {}] } : MCaccount).SecurityAnswers.length ≠ 3
      ∨ ({ SecurityAnswers := ["a", "b"], SecurityQuestions := [{}, {}, {}] } : MCaccount).SecurityQuestions.length ≠ 3)
    ∧ (submitAnswers { SecurityAnswers := ["a", "b"], SecurityQuestions := [{}, {}, {}] } {}).2 = [] := by
  have h : (({ SecurityAnswers := ["a", "b"], SecurityQuestions := [{}, {}, {}] } : MCaccount).SecurityAnswers.length ≠ 3
      ∨ ({ SecurityAnswers := ["a", "b"], SecurityQuestions := [{}, {}, {}] } : MCaccount).SecurityQuestions.length ≠ 3) := by
    left; decide
  exact ⟨h, (submitAnswers_arity_validation { SecurityAnswers := ["a", "b"], SecurityQuestions := [{}, {}, {}] } {} h).2⟩

/-- The credential exchange never assigns the `Authenticated` field. -/
theorem authenticate_preserves_authenticated (account : MCaccount) (env : AuthenticateEnv) :
    (authenticate account env).1.Authenticated = account.Authenticated := by
  unfold authenticate
  rcases env.resp with _ | status
  · rfl
  · by_cases hs : status < 300 <;> simp [hs]
    · rcases env.readBody with e | u
      · rfl
      · rcases env.parsed with e | info <;> rfl
    · by_cases h403 : status = 403 <;> simp [h403]

/-- Loading the security questions never assigns the `Authenticated` field. -/
theorem loadSecurityQuestions_preserves_authenticated (account : MCaccount) (env : LoadEnv) :
    (loadSecurityQuestions account env).1.Authenticated = account.Authenticated := by
  unfold loadSecurityQuestions
  by_cases hb : account.Bearer = "" <;> simp [hb]
  rcases env.resp with _ | status
  · rfl
  · by_cases hs : 400 ≤ status <;> simp [hs]
    rcases env.readBody with e | u
    · rfl
    · rcases env.parsed with e | sqs <;> rfl

/-- Claim C5: starting unauthenticated, `MojangAuthenticate` ends with
`Authenticated = true` exactly on the runs that return success; every failing
run leaves `Authenticated = false`. -/
theorem mojangAuthenticate_authenticated_iff_success (account : MCaccount) (env : MojangEnv)
    (h : account.Authenticated = false) :
    ((MojangAuthenticate account env).2.1 = Except.ok ()
      → (MojangAuthenticate account env).1.Authenticated = true)
    ∧ (∀ e, (MojangAuthenticate account env).2.1 = Except.error e
      → (MojangAuthenticate account env).1.Authenticated = false) := by
  unfold MojangAuthenticate
  rcases hA : authenticate account env.auth with ⟨acc1, r1⟩
  have hA1 : acc1.Authenticated = false := by
    have hp := authenticate_preserves_authenticated account env.auth
    rw [hA] at hp
    exact hp.trans h
  cases r1 with
  | error e => simp [hA, hA1]
  | ok u =>
    rcases hL : loadSecurityQuestions acc1 env.load with ⟨acc2, r2⟩
    have hA2 : acc2.Authenticated = false := by
      have hp := loadSecurityQuestions_preserves_authenticated acc1 env.load
      rw [hL] at hp
      exact hp.trans hA1
    cases r2 with
    | error e => simp [hA, hL, hA2]
    | ok u2 =>
      by_cases hq : acc2.SecurityQuestions = []
      · simp [hA, hL, hq]
      · rcases hN : needToAnswer acc2 env.need with ⟨needed, r3⟩
        cases r3 with
        | error e => simp [hA, hL, hq, hN, hA2]
        | ok u3 =>
          cases needed with
          | false => simp [hA, hL, hq, hN]
          | true =>
            rcases hS : (submitAnswers acc2 env.submit).1 with e | u4
            · simp [hA, hL, hq, hN, hS, hA2]
            · simp [hA, hL, hq, hN, hS]

/-- Claim C5 witness: the zero-question success run ends authenticated. -/
theorem mojangAuthenticate_authenticated_iff_success_witness :
    (({} : MCaccount).Authenticated = false)
    ∧ (MojangAuthenticate {} envAuthOkW).1.Authenticated = true := by
  have h : ({} : MCaccount).Authenticated = false := rfl
  exact ⟨h, (mojangAuthenticate_authenticated_iff_success {} envAuthOkW h).1 (by rfl)⟩

/-- Claim C6 counterexample: the runs at the non-success statuses 500 and 501
return the same fixed fall-through error, so the error cannot carry the
status code. -/
theorem authenticate_unexpected_error_ignores_status :
    (authenticate {} (authEnvAt 500)).2 = Except.error unexpectedAuthMsg
    ∧ (authenticate {} (authEnvAt 501)).2 = Except.error unexpectedAuthMsg
    ∧ (500 : Nat) ≠ 501 := by
  exact ⟨rfl, rfl, by decide⟩

/-- Claim C6 amended: among non-success responses, `authenticate` fails with
the invalid-credentials error exactly at status 403, and at every other
non-success status with the fixed fall-through error, whose text does not
depend on the status. -/
theorem authenticate_status_dispatch (account : MCaccount) (env : AuthenticateEnv)
    (status : Nat) (hresp : env.resp = some status) (hns : ¬ status < 300) :
    ((authenticate account env).2 = Except.error "invalid email or password" ↔ status = 403)
    ∧ (status ≠ 403 → (authenticate account env).2 = Except.error unexpectedAuthMsg) := by
  unfold authenticate
  rw [hresp]
  by_cases h403 : status = 403 <;> simp [hns, h403, unexpectedAuthMsg]

/-- Claim C6 amended witness: the 403 response yields invalid credentials. -/
theorem authenticate_status_dispatch_witness :
    (authEnvAt 403).resp = some 403 ∧ ¬ (403 : Nat) < 300
    ∧ (authenticate {} (authEnvAt 403)).2 = Except.error "invalid email or password" := by
  have h1 : (authEnvAt 403).resp = some 403 := rfl
  have h2 : ¬ (403 : Nat) < 300 := by decide
  exact ⟨h1, h2, (authenticate_status_dispatch {} (authEnvAt 403) 403 h1 h2).1.mpr rfl⟩

/-- Claim C9: when the credential exchange succeeds and the loaded question
list is empty, `MojangAuthenticate` succeeds with `Authenticated = true` and
the invoked steps are exactly the exchange and the load — neither
`needToAnswer` nor `submitAnswers` runs. -/
theorem mojangAuthenticate_zero_questions (account : MCaccount) (env : MojangEnv)
    (h1 : (authenticate account env.auth).2 = Except.ok ())
    (h2 : (loadSecurityQuestions (authenticate account env.auth).1 env.load).2 = Except.ok ())
    (h3 : (loadSecurityQuestions (authenticate account env.auth).1 env.load).1.SecurityQuestions = []) :
    (MojangAuthenticate account env).2.1 = Except.ok ()
    ∧ (MojangAuthenticate account env).1.Authenticated = true
    ∧ (MojangAuthenticate account env).2.2
      = [AuthStep.stepAuthenticate, AuthStep.stepLoadQuestions] := by
  unfold MojangAuthenticate
  rcases hA : authenticate account env.auth with ⟨acc1, r1⟩
  rw [hA] at h1 h2 h3
  replace h1 : r1 = Except.ok () := h1
  subst h1
  rcases hL : loadSecurityQuestions acc1 env.load with ⟨acc2, r2⟩
  rw [hL] at h2 h3
  replace h2 : r2 = Except.ok () := h2
  subst h2
  replace h3 : acc2.SecurityQuestions = [] := h3
  simp [hA, hL, h3]

/-- Claim C9 witness: the concrete zero-question success run. -/
theorem mojangAuthenticate_zero_questions_witness :
    (authenticate {} envAuthOkW.auth).2 = Except.ok ()
    ∧ (loadSecurityQuestions (authenticate {} envAuthOkW.auth).1 envAuthOkW.load).2 = Except.ok ()
    ∧ (loadSecurityQuestions (authenticate {} envAuthOkW.auth).1 envAuthOkW.load).1.SecurityQuestions = []
    ∧ (MojangAuthenticate {} envAuthOkW).2.2
      = [AuthStep.stepAuthenticate, AuthStep.stepLoadQuestions] := by
  have h1 : (authenticate {} envAuthOkW.auth).2 = Except.ok () := rfl
  have h2 : (loadSecurityQuestions (authenticate {} envAuthOkW.auth).1 envAuthOkW.load).2
      = Except.ok () := rfl
  have h3 : (loadSecurityQuestions (authenticate {} envAuthOkW.auth).1 envAuthOkW.load).1.SecurityQuestions
      = [] := rfl
  exact ⟨h1, h2, h3, (mojangAuthenticate_zero_questions {} envAuthOkW h1 h2 h3).2.2⟩

/-- Claim C10: `ChangeName` leaves the receiver untouched; an error outcome
echoes the zero-valued account, a success outcome echoes a copy of the
receiver; and two receivers with the same bearer produce identical traces and
identical outcomes up to the echoed account. -/
theorem changeName_account_frame (acc1 acc2 : MCaccount) (username : String)
    (changeTime : Int) (createProfile : Bool) (env : NetEnv)
    (hB : acc1.Bearer = acc2.Bearer) :
    (ChangeName acc1 username changeTime createProfile env).finalAccount = acc1
    ∧ (∀ ret e, (ChangeName acc1 username changeTime createProfile env).outcome
        = some (ret, some e) → ret.Account = ({} : MCaccount))
    ∧ (∀ ret, (ChangeName acc1 username changeTime createProfile env).outcome
        = some (ret, none) → ret.Account = acc1)
    ∧ (ChangeName acc1 username changeTime createProfile env).trace
      = (ChangeName acc2 username changeTime createProfile env).trace
    ∧ Option.map stripAcc (ChangeName acc1 username changeTime createProfile env).outcome
      = Option.map stripAcc (ChangeName acc2 username changeTime createProfile env).outcome := by
  have hP : claimPayload acc1 username createProfile = claimPayload acc2 username createProfile := by
    unfold claimPayload
    rw [hB]
  unfold ChangeName
  rw [hP]
  cases hd : env.dialOk with
  | false => simp [hd]
  | true =>
    rcases hAtoi : goAtoi [recvdAt env 9, recvdAt env 10, recvdAt env 11] with e | status <;>
      simp [hd, hAtoi, stripAcc]

/-- Claim C10 witness: two accounts sharing a bearer but nothing else. -/
theorem changeName_account_frame_witness :
    ({ Bearer := "token", Email := "someone" } : MCaccount).Bearer = accW.Bearer
    ∧ (ChangeName { Bearer := "token", Email := "someone" } "abc" 0 false envW).finalAccount
      = { Bearer := "token", Email := "someone" }
    ∧ (ChangeName { Bearer := "token", Email := "someone" } "abc" 0 false envW).trace
      = (ChangeName accW "abc" 0 false envW).trace := by
  have hB : ({ Bearer := "token", Email := "someone" } : MCaccount).Bearer = accW.Bearer := rfl
  have hc := changeName_account_frame { Bearer := "token", Email := "someone" } accW "abc" 0 false envW hB
  exact ⟨hB, hc.1, hc.2.2.2.1⟩

end Mcgo
